import Mathlib

/-!
# Verification of the multi-provider storage routing layer

A shallow embedding of the storage layer of the unified video backend:
the `StorageManager` facade (`src/services/storage/storage_manager.py`)
and its three provider adapters — Backblaze B2
(`src/services/storage/backblaze_service.py`), Cloudinary
(`src/services/storage/cloudinary_service.py`) and Firebase
(`firebase_service.py`).

Adapters that are not configured are `None` in the Python code; here a
`StorageConfig` of three booleans records which adapters exist.  Calls
into a concrete adapter are modelled by recording which adapter the
manager delegated to; Python exceptions are modelled with `Except`.
-/

namespace VideoBackend

/-! ## Character-list string utilities

The Python code tests membership of substrings (`'x' in url`) and string
prefixes.  These are modelled by structurally recursive functions over
`List Char`, applied to `String.data`, so that all predicates evaluate
by kernel reduction on concrete inputs. -/

/-- `listStartsWith p s` is true when the list `p` is an initial segment
of the list `s`. -/
def listStartsWith : List Char → List Char → Bool
  | [], _ => true
  | _ :: _, [] => false
  | a :: as, b :: bs => a == b && listStartsWith as bs

/-- `listHasSub p s` is true when `p` occurs as a contiguous sublist of
`s`. -/
def listHasSub (p : List Char) : List Char → Bool
  | [] => listStartsWith p []
  | c :: rest => listStartsWith p (c :: rest) || listHasSub p rest

/-- Python `s.startswith(pre)`. -/
def strStartsWith (s pre : String) : Bool :=
  listStartsWith pre.data s.data

/-- Python `pat in s` (substring containment). -/
def strContains (s pat : String) : Bool :=
  listHasSub pat.data s.data

/-- Python `s.lower()` restricted to ASCII, as used on file extensions. -/
def toLowerStr (s : String) : String :=
  ⟨s.data.map Char.toLower⟩

theorem listStartsWith_append (p r : List Char) :
    listStartsWith p (p ++ r) = true := by
  induction p with
  | nil => rfl
  | cons a as ih => simp [listStartsWith, ih]

theorem listStartsWith_nil_iff (p : List Char) :
    listStartsWith p [] = true ↔ p = [] := by
  cases p <;> simp [listStartsWith]

theorem listHasSub_of_startsWith (p s : List Char)
    (h : listStartsWith p s = true) : listHasSub p s = true := by
  cases s with
  | nil => simpa [listHasSub] using h
  | cons c rest => simp [listHasSub, h]

theorem listStartsWith_extend (p s b : List Char)
    (h : listStartsWith p s = true) : listStartsWith p (s ++ b) = true := by
  induction p generalizing s with
  | nil => rfl
  | cons x xs ih =>
    cases s with
    | nil => simp [listStartsWith] at h
    | cons y ys =>
      simp only [listStartsWith, List.cons_append] at h ⊢
      rcases Bool.and_eq_true_iff.mp h with ⟨he, hs⟩
      exact Bool.and_eq_true_iff.mpr ⟨he, ih ys hs⟩

theorem listHasSub_append_left (p a b : List Char)
    (h : listHasSub p a = true) : listHasSub p (a ++ b) = true := by
  induction a with
  | nil =>
    have hp : p = [] := (listStartsWith_nil_iff p).mp (by simpa [listHasSub] using h)
    subst hp
    cases b <;> simp [listHasSub, listStartsWith]
  | cons c rest ih =>
    rw [List.cons_append]
    simp only [listHasSub] at h ⊢
    rcases Bool.or_eq_true_iff.mp h with h1 | h2
    · exact Bool.or_eq_true_iff.mpr (Or.inl (listStartsWith_extend _ _ _ h1))
    · exact Bool.or_eq_true_iff.mpr (Or.inr (ih h2))

theorem listStartsWith_head_eq (a b : Char) (as bs s : List Char)
    (h1 : listStartsWith (a :: as) s = true)
    (h2 : listStartsWith (b :: bs) s = true) : a = b := by
  cases s with
  | nil => exact absurd h1 (by simp [listStartsWith])
  | cons y ys =>
    simp only [listStartsWith, Bool.and_eq_true, beq_iff_eq] at h1 h2
    exact h1.1.trans h2.1.symm

theorem strStartsWith_append (pre rest : String) :
    strStartsWith (pre ++ rest) pre = true := by
  show listStartsWith pre.data (pre ++ rest).data = true
  have : (pre ++ rest).data = pre.data ++ rest.data := rfl
  rw [this]
  exact listStartsWith_append _ _

theorem strContains_append_left (a b pat : String)
    (h : strContains a pat = true) : strContains (a ++ b) pat = true := by
  show listHasSub pat.data (a ++ b).data = true
  have : (a ++ b).data = a.data ++ b.data := rfl
  rw [this]
  exact listHasSub_append_left _ _ _ h

/-! ## Data model -/

/-- The three concrete storage adapters composed by the manager. -/
inductive Provider
  | backblaze
  | cloudinary
  | firebase
  deriving DecidableEq, Repr

/-- Which adapters were successfully initialized (`self.backblaze`,
`self.cloudinary`, `self.firebase` being non-`None` in
`StorageManager.__init__`). -/
structure StorageConfig where
  backblaze : Bool
  cloudinary : Bool
  firebase : Bool
  deriving DecidableEq, Repr

/-- Observable outcome of `StorageManager.upload_file`:
either the manager delegated the upload to one adapter (`uploaded p`,
returning that adapter's result), or the Python function fell through
all branches and returned `None` (`noResult`), or it raised
(`uploadError msg`). -/
inductive UploadOutcome
  | uploaded (p : Provider)
  | noResult
  | uploadError (msg : String)
  deriving DecidableEq, Repr

/-! ## StorageManager.upload_file and _auto_select_storage -/

/-- The archival-affinity file-type tags (`storage_manager.py` line 91). -/
def remixTypes : List String := ["remix_video", "remix_audio", "remix_thumbnail"]

/-- The CDN-affinity file-type tags (`storage_manager.py` line 99). -/
def editorTypes : List String := ["editor_video", "editor_audio", "editor_image", "project_export"]

/-- The shared-resource file-type tags (`storage_manager.py` line 107). -/
def sharedTypes : List String := ["user_avatar", "template_thumbnail", "effect_preview"]

/-- The `for service in [self.cloudinary, self.backblaze, self.firebase]`
fallback loop of `_auto_select_storage`: first configured adapter in
that fixed order. -/
def defaultFallback (cfg : StorageConfig) : Option Provider :=
  [(Provider.cloudinary, cfg.cloudinary),
   (Provider.backblaze, cfg.backblaze),
   (Provider.firebase, cfg.firebase)].findSome?
    (fun pc => if pc.2 then some pc.1 else none)

/-- `StorageManager._auto_select_storage`: size-based selection with the
fixed-order fallback loop; `none` models the
`raise Exception("No storage service available")`. -/
def autoSelectStorage (cfg : StorageConfig) (fileSize : Nat) : Option Provider :=
  if fileSize > 100 * 1024 * 1024 then
    if cfg.cloudinary then some Provider.cloudinary
    else if cfg.backblaze then some Provider.backblaze
    else defaultFallback cfg
  else if fileSize < 10 * 1024 * 1024 then
    if cfg.firebase then some Provider.firebase
    else defaultFallback cfg
  else defaultFallback cfg

/-- `StorageManager.upload_file`: route by file-type tag with static
fallback chains; unrecognized tags go to `_auto_select_storage`, whose
raised exception is caught and re-raised as
`Exception("Upload failed: ...")`. -/
def uploadFile (cfg : StorageConfig) (fileType : String) (fileSize : Nat) :
    UploadOutcome :=
  if fileType ∈ remixTypes then
    if cfg.backblaze then .uploaded .backblaze
    else if cfg.cloudinary then .uploaded .cloudinary
    else .noResult
  else if fileType ∈ editorTypes then
    if cfg.cloudinary then .uploaded .cloudinary
    else if cfg.backblaze then .uploaded .backblaze
    else .noResult
  else if fileType ∈ sharedTypes then
    if cfg.firebase then .uploaded .firebase
    else if cfg.cloudinary then .uploaded .cloudinary
    else if cfg.backblaze then .uploaded .backblaze
    else .noResult
  else
    match autoSelectStorage cfg fileSize with
    | some p => .uploaded p
    | none => .uploadError "Upload failed: No storage service available"

/-- The auto-selection policy exactly as the spec words it
(§4.2 rule 4): content ≥ 100MB prefers CDN-media then archival; content
< 10MB prefers general-bucket; remaining adapters are scanned in the
fixed order CDN-media, archival, general-bucket, with the unsatisfied
size preferences also falling back to that availability scan. -/
def specAutoSelect (cfg : StorageConfig) (fileSize : Nat) : Option Provider :=
  let scan : Option Provider :=
    if cfg.cloudinary then some Provider.cloudinary
    else if cfg.backblaze then some Provider.backblaze
    else if cfg.firebase then some Provider.firebase
    else none
  if fileSize ≥ 100 * 1024 * 1024 then
    if cfg.cloudinary then some Provider.cloudinary
    else if cfg.backblaze then some Provider.backblaze
    else scan
  else if fileSize < 10 * 1024 * 1024 then
    if cfg.firebase then some Provider.firebase
    else scan
  else scan

/-! ## StorageManager.delete_file and get_download_url -/

/-- The URL-substring provider inference of `StorageManager.delete_file`
(lines 168–174): run when no `service_type` hint is given. -/
def inferServiceType (fileUrl : String) : Option String :=
  if strContains fileUrl "backblazeb2.com" || strContains fileUrl "b2-api.com" then
    some "backblaze"
  else if strContains fileUrl "cloudinary.com" then
    some "cloudinary"
  else if strContains fileUrl "firebase" || strContains fileUrl "googleapis.com" then
    some "firebase"
  else
    none

/-- The dispatch of `StorageManager.delete_file`: the hint (when truthy;
Python `if not service_type` also treats `""` as absent) or the inferred
service type, matched against the configured adapters in order; `none`
when the chain falls through to the `return False` at line 185. -/
def resolveDeleteService (cfg : StorageConfig) (fileUrl : String)
    (serviceType : Option String) : Option Provider :=
  let st : Option String :=
    match serviceType with
    | none => inferServiceType fileUrl
    | some s => if s = "" then inferServiceType fileUrl else some s
  match st with
  | none => none
  | some s =>
    if s = "backblaze" && cfg.backblaze then some Provider.backblaze
    else if s = "cloudinary" && cfg.cloudinary then some Provider.cloudinary
    else if s = "firebase" && cfg.firebase then some Provider.firebase
    else none

/-- `StorageManager.delete_file`.  `del p url` is the selected adapter's
`delete_file`, which may itself raise (`Except.error`); the manager's
`try/except` turns any exception into `False`, so the caller always
receives `Except.ok` of a boolean. -/
def deleteFile (cfg : StorageConfig) (del : Provider → String → Except String Bool)
    (fileUrl : String) (serviceType : Option String) : Except String Bool :=
  match resolveDeleteService cfg fileUrl serviceType with
  | some p =>
    match del p fileUrl with
    | .ok b => .ok b
    | .error _ => .ok false
  | none => .ok false

/-- `StorageManager.get_download_url` (lines 202–212): its own
substring checks fused with adapter availability; `sign p url` is the
selected adapter's `get_signed_url`. -/
def getDownloadUrlCore (cfg : StorageConfig)
    (sign : Provider → String → Except String String) (fileUrl : String) :
    Except String String :=
  if strContains fileUrl "backblazeb2.com" && cfg.backblaze then
    sign Provider.backblaze fileUrl
  else if strContains fileUrl "cloudinary.com" && cfg.cloudinary then
    sign Provider.cloudinary fileUrl
  else if strContains fileUrl "firebase" && cfg.firebase then
    sign Provider.firebase fileUrl
  else
    .ok fileUrl

/-- `StorageManager.get_download_url` with its surrounding `try/except`:
any exception degrades to returning the original URL. -/
def getDownloadUrl (cfg : StorageConfig)
    (sign : Provider → String → Except String String) (fileUrl : String) : String :=
  match getDownloadUrlCore cfg sign fileUrl with
  | .ok u => u
  | .error _ => fileUrl

/-- The pattern part of `get_download_url`'s inference, stated as a
stand-alone rule for comparison with `inferServiceType`: the substring
checks of lines 204, 206 and 208 in their source order. -/
def signedUrlInference (fileUrl : String) : Option String :=
  if strContains fileUrl "backblazeb2.com" then some "backblaze"
  else if strContains fileUrl "cloudinary.com" then some "cloudinary"
  else if strContains fileUrl "firebase" then some "firebase"
  else none

/-! ## Backblaze B2 adapter -/

/-- `BackblazeService._extract_file_id_from_url`: the body is a comment
and `return None` for every input. -/
def extractFileIdFromUrl (_fileUrl : String) : Option String :=
  none

/-- `BackblazeService.delete_file`.  `api fid` models the
`get_file_info`/`delete_file_version` backend calls on a recovered file
id; the second component records the file ids whose deletion was
requested from the backend. -/
def backblazeDeleteFile (api : String → Except String Unit) (fileUrl : String) :
    Bool × List String :=
  match extractFileIdFromUrl fileUrl with
  | none => (false, [])
  | some fid =>
    match api fid with
    | .ok _ => (true, [fid])
    | .error _ => (false, [fid])

/-- The unique object key generated by `BackblazeService.upload_file`
(line 63): `f"{user_id}/{file_type}/{uuid.uuid4()}{file_extension}"`,
with the UUID supplied as a parameter. -/
def backblazeUniqueFilename (userId fileType uuidStr ext : String) : String :=
  userId ++ "/" ++ fileType ++ "/" ++ uuidStr ++ ext

/-- The `len(files) >= limit` truncation of `BackblazeService.list_files`:
each matching entry is appended before the limit test, so the first
entry survives even a zero limit. -/
def lsLimit : Nat → List String → List String
  | _, [] => []
  | limit, k :: rest => k :: (if 1 ≥ limit then [] else lsLimit (limit - 1) rest)

/-- `BackblazeService.list_files`: the bucket's keys under the prefix
`{user_id}/` or `{user_id}/{file_type}/`, truncated at the limit.
`keys` is the bucket's enumeration order. -/
def backblazeListFiles (keys : List String) (userId : String)
    (fileType : Option String) (limit : Nat) : List String :=
  let pre : String :=
    match fileType with
    | some t => userId ++ "/" ++ t ++ "/"
    | none => userId ++ "/"
  lsLimit limit (keys.filter (fun k => strStartsWith k pre))

/-- Modelled from the spec: the archival adapter's download URL is
produced by the B2 SDK (`api.get_download_url_for_fileid`, outside this
repository); per the spec the inference patterns are "unique to each
backend's domain", and B2 file-id download URLs live on the provider's
`backblazeb2.com` domain. -/
def backblazeDownloadUrl (fileId : String) : String :=
  "https://f002.backblazeb2.com/b2api/v2/b2_download_file_by_id?fileId=" ++ fileId

/-! ## Firebase adapter -/

/-- The unique object key generated by `FirebaseService.upload_file`
(line 74): `f"{file_type}/{user_id}/{uuid.uuid4()}{file_extension}"`. -/
def firebaseUniqueFilename (fileType userId uuidStr ext : String) : String :=
  fileType ++ "/" ++ userId ++ "/" ++ uuidStr ++ ext

/-- `FirebaseService.list_files`: blobs under the prefix
`{file_type}/{user_id}/` (or the literal `*/{user_id}/` when no tag is
given), with the backend honouring `max_results=limit`. -/
def firebaseListFiles (blobs : List String) (userId : String)
    (fileType : Option String) (limit : Nat) : List String :=
  let pre : String :=
    match fileType with
    | some t => t ++ "/" ++ userId ++ "/"
    | none => "*/" ++ userId ++ "/"
  (blobs.filter (fun b => strStartsWith b pre)).take limit

/-- Modelled from the spec: the general-bucket adapter's download URL is
`blob.public_url` from the Google Cloud Storage SDK (outside this
repository), of the documented shape
`https://storage.googleapis.com/{bucket}/{blob_name}`. -/
def firebasePublicUrl (bucket blobName : String) : String :=
  "https://storage.googleapis.com/" ++ (bucket ++ "/" ++ blobName)

/-! ## Cloudinary adapter -/

/-- The unique public id generated by `CloudinaryService.upload_file`
(line 57): `f"{user_id}/{file_type}/{uuid.uuid4()}"` (no extension). -/
def cloudinaryPublicId (userId fileType uuidStr : String) : String :=
  userId ++ "/" ++ fileType ++ "/" ++ uuidStr

/-- A stored Cloudinary resource as relevant to upload and search:
its public id, the `folder` upload option, and its `tags`. -/
structure CloudinaryResource where
  publicId : String
  folder : String
  tags : List String
  deriving DecidableEq, Repr

/-- The resource created by `CloudinaryService.upload_file`: public id
`{user_id}/{file_type}/{uuid}`, folder `video-editor/{user_id}`, tags
`[file_type, user_id]`. -/
def cloudinaryUploadResource (userId fileType uuidStr : String) :
    CloudinaryResource :=
  ⟨cloudinaryPublicId userId fileType uuidStr,
   "video-editor/" ++ userId, [fileType, userId]⟩

/-- `CloudinaryService.list_files`: the search expression
`folder:video-editor/{user_id}` with an `AND tags:{file_type}` clause
when a tag is given, truncated at `max_results(limit)`. -/
def cloudinarySearch (resources : List CloudinaryResource) (userId : String)
    (fileType : Option String) (limit : Nat) : List CloudinaryResource :=
  (resources.filter (fun r =>
    r.folder == "video-editor/" ++ userId &&
      (match fileType with
       | some t => r.tags.contains t
       | none => true))).take limit

/-- Modelled from the spec: the CDN-media adapter's download URL is
`result['secure_url']` from the Cloudinary SDK (outside this
repository), of the documented shape
`https://res.cloudinary.com/{cloud_name}/{resource_type}/upload/{public_id}.{format}`. -/
def cloudinaryDownloadUrl (cloudName publicId fmt : String) : String :=
  "https://res.cloudinary.com/" ++ (cloudName ++ "/video/upload/" ++ publicId ++ "." ++ fmt)

/-- The recognized extension lists of
`CloudinaryService._get_resource_type` (lines 256–258). -/
def videoExtensions : List String :=
  [".mp4", ".avi", ".mov", ".wmv", ".flv", ".webm", ".mkv"]

/-- Audio extensions of `_get_resource_type`. -/
def audioExtensions : List String :=
  [".mp3", ".wav", ".aac", ".ogg", ".m4a", ".flac"]

/-- Image extensions of `_get_resource_type`. -/
def imageExtensions : List String :=
  [".jpg", ".jpeg", ".png", ".gif", ".bmp", ".webp", ".svg"]

/-- `CloudinaryService._get_resource_type`: the declared content-type is
consulted first (Python truthiness: `None` and `""` skip the block, and
a content-type matching none of the three media prefixes falls
through), then the lowercased extension. -/
def getResourceType (contentType : Option String) (fileExtension : String) :
    String :=
  let ctResult : Option String :=
    match contentType with
    | none => none
    | some ct =>
      if ct = "" then none
      else if strStartsWith ct "video/" then some "video"
      else if strStartsWith ct "audio/" then some "video"
      else if strStartsWith ct "image/" then some "image"
      else none
  match ctResult with
  | some r => r
  | none =>
    let ext := toLowerStr fileExtension
    if ext ∈ videoExtensions || ext ∈ audioExtensions then "video"
    else if ext ∈ imageExtensions then "image"
    else "raw"

/-! ## Claims -/

/-- C3: for every backend behaviour and every input URL, the archival
adapter's `delete_file` returns `false` and requests no deletion from
the backend, because `_extract_file_id_from_url` returns no identifier
for any input string. -/
theorem backblaze_delete_always_false (api : String → Except String Unit)
    (fileUrl : String) :
    backblazeDeleteFile api fileUrl = (false, []) ∧
      extractFileIdFromUrl fileUrl = none :=
  ⟨rfl, rfl⟩

/-- C8: uploading with file-type tag `remix_video` when the archival
adapter is absent and the CDN-media adapter is configured routes to the
CDN-media adapter, for every file size (hence every file and user). -/
theorem remix_video_falls_back_to_cloudinary (cfg : StorageConfig) (sz : Nat)
    (hb : cfg.backblaze = false) (hc : cfg.cloudinary = true) :
    uploadFile cfg "remix_video" sz = .uploaded .cloudinary := by
  simp [uploadFile, remixTypes, hb, hc]

/-- Witness for C8 at a concrete configuration and size. -/
theorem remix_video_falls_back_to_cloudinary_witness :
    uploadFile ⟨false, true, true⟩ "remix_video" 7 = .uploaded .cloudinary :=
  remix_video_falls_back_to_cloudinary ⟨false, true, true⟩ 7 rfl rfl

/-- C7: for every upload whose tag belongs to a recognized routing
category but whose whole fallback chain of adapters is unconfigured,
`upload_file` returns no result (Python `None`), without raising and
without delegating to any adapter — even when a third adapter outside
the chain is configured. -/
theorem recognized_tag_unconfigured_chain_returns_none (cfg : StorageConfig)
    (ft : String) (sz : Nat) :
    (ft ∈ remixTypes → cfg.backblaze = false → cfg.cloudinary = false →
      uploadFile cfg ft sz = .noResult) ∧
    (ft ∈ editorTypes → cfg.cloudinary = false → cfg.backblaze = false →
      uploadFile cfg ft sz = .noResult) ∧
    (ft ∈ sharedTypes → cfg.firebase = false → cfg.cloudinary = false →
      cfg.backblaze = false → uploadFile cfg ft sz = .noResult) := by
  refine ⟨?_, ?_, ?_⟩
  · intro h hb hc
    simp only [remixTypes, List.mem_cons, List.not_mem_nil, or_false] at h
    rcases h with rfl | rfl | rfl <;>
      simp [uploadFile, remixTypes, editorTypes, sharedTypes, hb, hc]
  · intro h hc hb
    simp only [editorTypes, List.mem_cons, List.not_mem_nil, or_false] at h
    rcases h with rfl | rfl | rfl | rfl <;>
      simp [uploadFile, remixTypes, editorTypes, sharedTypes, hb, hc]
  · intro h hf hc hb
    simp only [sharedTypes, List.mem_cons, List.not_mem_nil, or_false] at h
    rcases h with rfl | rfl | rfl <;>
      simp [uploadFile, remixTypes, editorTypes, sharedTypes, hb, hc, hf]

/-- Witness for C7: a `remix_video` upload with neither archival nor
CDN-media configured returns `None` even though the general-bucket
adapter is configured. -/
theorem recognized_tag_unconfigured_chain_returns_none_witness :
    uploadFile ⟨false, false, true⟩ "remix_video" 42 = .noResult :=
  (recognized_tag_unconfigured_chain_returns_none ⟨false, false, true⟩
    "remix_video" 42).1 (by decide) rfl rfl

/-- Counterexample to C1 as stated: with zero adapters configured, an
upload with the recognized tag `remix_video` does not fail with the
`NoStorageAvailableError`-style error; it returns `None`. -/
theorem zero_adapters_recognized_tag_counterexample :
    uploadFile ⟨false, false, false⟩ "remix_video" 0 = .noResult ∧
    UploadOutcome.noResult ≠
      .uploadError "Upload failed: No storage service available" := by
  exact ⟨by decide, by decide⟩

/-- C1 (amended): with zero adapters configured no adapter ever
receives a call; an upload whose tag is unrecognized (the auto-select
path) raises the surfaced `Upload failed: No storage service available`
error; an upload with a recognized tag instead returns `None` without
raising. -/
theorem zero_adapters_upload_behaviour (ft : String) (sz : Nat) :
    (∀ p, uploadFile ⟨false, false, false⟩ ft sz ≠ .uploaded p) ∧
    (ft ∉ remixTypes → ft ∉ editorTypes → ft ∉ sharedTypes →
      uploadFile ⟨false, false, false⟩ ft sz =
        .uploadError "Upload failed: No storage service available") ∧
    ((ft ∈ remixTypes ∨ ft ∈ editorTypes ∨ ft ∈ sharedTypes) →
      uploadFile ⟨false, false, false⟩ ft sz = .noResult) := by
  have hauto : autoSelectStorage ⟨false, false, false⟩ sz = none := by
    simp [autoSelectStorage, defaultFallback, List.findSome?]
  by_cases h1 : ft ∈ remixTypes
  · refine ⟨?_, fun hn _ _ => absurd h1 hn, fun _ => ?_⟩ <;>
      simp [uploadFile, h1]
  · by_cases h2 : ft ∈ editorTypes
    · refine ⟨?_, fun _ hn _ => absurd h2 hn, fun _ => ?_⟩ <;>
        simp [uploadFile, h1, h2]
    · by_cases h3 : ft ∈ sharedTypes
      · refine ⟨?_, fun _ _ hn => absurd h3 hn, fun _ => ?_⟩ <;>
          simp [uploadFile, h1, h2, h3]
      · refine ⟨?_, fun _ _ _ => ?_, fun hc => ?_⟩
        · intro p
          simp [uploadFile, h1, h2, h3, hauto]
        · simp [uploadFile, h1, h2, h3, hauto]
        · rcases hc with hc | hc | hc <;> [exact absurd hc h1; exact absurd hc h2;
            exact absurd hc h3]

/-- Witness for C1 (amended): an unrecognized tag with zero adapters
surfaces the no-storage error. -/
theorem zero_adapters_upload_behaviour_witness :
    uploadFile ⟨false, false, false⟩ "generic_blob" 5 =
      .uploadError "Upload failed: No storage service available" :=
  (zero_adapters_upload_behaviour "generic_blob" 5).2.1
    (by decide) (by decide) (by decide)

/-- C9: `StorageManager.delete_file` always hands its caller a boolean
(`Except.ok`), never an exception, whatever the adapters' delete
behaviours; and with no hint on a URL matching no known provider
pattern it returns `false`. -/
theorem delete_file_never_raises (cfg : StorageConfig)
    (del : Provider → String → Except String Bool) (fileUrl : String)
    (serviceType : Option String) :
    (∃ b, deleteFile cfg del fileUrl serviceType = .ok b) ∧
    (inferServiceType fileUrl = none →
      deleteFile cfg del fileUrl none = .ok false) := by
  constructor
  · cases hr : resolveDeleteService cfg fileUrl serviceType with
    | none => exact ⟨false, by simp [deleteFile, hr]⟩
    | some p =>
      cases hd : del p fileUrl with
      | error e => exact ⟨false, by simp [deleteFile, hr, hd]⟩
      | ok b => exact ⟨b, by simp [deleteFile, hr, hd]⟩
  · intro hn
    simp [deleteFile, resolveDeleteService, hn]

/-- Witness for C9: an unknown-domain URL deletes to `false` with all
adapters configured, and the first conjunct at the same input. -/
theorem delete_file_never_raises_witness :
    (∃ b, deleteFile ⟨true, true, true⟩ (fun _ _ => .error "boom")
      "https://unknown.example.com/file.bin" none = .ok b) ∧
    deleteFile ⟨true, true, true⟩ (fun _ _ => .error "boom")
      "https://unknown.example.com/file.bin" none = .ok false :=
  ⟨(delete_file_never_raises ⟨true, true, true⟩ (fun _ _ => .error "boom")
      "https://unknown.example.com/file.bin" none).1,
   (delete_file_never_raises ⟨true, true, true⟩ (fun _ _ => .error "boom")
      "https://unknown.example.com/file.bin" none).2 (by decide)⟩

theorem autoSelect_eq_spec (cfg : StorageConfig) (sz : Nat) :
    autoSelectStorage cfg sz = specAutoSelect cfg sz := by
  rcases cfg with ⟨b, c, f⟩
  cases b <;> cases c <;> cases f <;>
    simp [autoSelectStorage, specAutoSelect, defaultFallback, List.findSome?] <;>
    split_ifs <;> first | rfl | omega

/-- C6: on an unrecognized file-type tag the Manager's routing equals
the spec's auto-select-by-size policy (`specAutoSelect`) for every
configuration and size, with the `NoStorageAvailableError`-style error
when it resolves to no adapter; in particular 150MB content with only
the archival adapter configured routes to archival. -/
theorem auto_select_routing (cfg : StorageConfig) (ft : String) (sz : Nat)
    (h1 : ft ∉ remixTypes) (h2 : ft ∉ editorTypes) (h3 : ft ∉ sharedTypes) :
    (uploadFile cfg ft sz =
      match specAutoSelect cfg sz with
      | some p => .uploaded p
      | none => .uploadError "Upload failed: No storage service available") ∧
    uploadFile ⟨true, false, false⟩ ft (150 * 1024 * 1024) =
      .uploaded .backblaze := by
  constructor
  · rw [← autoSelect_eq_spec]
    simp [uploadFile, h1, h2, h3]
  · have : autoSelectStorage ⟨true, false, false⟩ (150 * 1024 * 1024) =
        some Provider.backblaze := by
      simp [autoSelectStorage]
    simp [uploadFile, h1, h2, h3, this]

/-- Witness for C6 at a concrete unrecognized tag. -/
theorem auto_select_routing_witness :
    uploadFile ⟨true, false, false⟩ "generic_archive" (150 * 1024 * 1024) =
      .uploaded .backblaze :=
  (auto_select_routing ⟨true, false, false⟩ "generic_archive" 0
    (by decide) (by decide) (by decide)).2

theorem strAppendAssoc (a b c : String) : a ++ b ++ c = a ++ (b ++ c) := by
  apply String.ext
  show (a.data ++ b.data) ++ c.data = a.data ++ (b.data ++ c.data)
  exact List.append_assoc _ _ _

/-- Counterexample to C2 as stated: the archival adapter's key for user
`u1` and tag `remix_video` is `u1/remix_video/abc.mp4`, which does not
begin with the claimed `{fileTypeTag}/{userId}/` prefix. -/
theorem backblaze_key_order_counterexample :
    backblazeUniqueFilename "u1" "remix_video" "abc" ".mp4" =
      "u1/remix_video/abc.mp4" ∧
    strStartsWith (backblazeUniqueFilename "u1" "remix_video" "abc" ".mp4")
      ("remix_video" ++ "/" ++ "u1" ++ "/") = false := by
  decide

/-- C2 (amended): the general-bucket adapter's key decomposes into the
prefix `{fileTypeTag}/{userId}/` followed by the random identifier,
while the archival and CDN-media keys use the reversed order
`{userId}/{fileTypeTag}/`; on each adapter, listing by the same
`(userId, fileTypeTag)` pair afterwards includes the new object when it
is enumerated first by the backend and the limit is positive. -/
theorem upload_key_decomposition_and_listing (u t uuidStr ext : String)
    (others : List String) (rs : List CloudinaryResource) (limit : Nat)
    (hl : 1 ≤ limit) :
    (firebaseUniqueFilename t u uuidStr ext =
        (t ++ "/" ++ u ++ "/") ++ (uuidStr ++ ext) ∧
      firebaseUniqueFilename t u uuidStr ext ∈
        firebaseListFiles (firebaseUniqueFilename t u uuidStr ext :: others)
          u (some t) limit) ∧
    (backblazeUniqueFilename u t uuidStr ext =
        (u ++ "/" ++ t ++ "/") ++ (uuidStr ++ ext) ∧
      backblazeUniqueFilename u t uuidStr ext ∈
        backblazeListFiles (backblazeUniqueFilename u t uuidStr ext :: others)
          u (some t) limit) ∧
    (cloudinaryPublicId u t uuidStr = (u ++ "/" ++ t ++ "/") ++ uuidStr ∧
      cloudinaryUploadResource u t uuidStr ∈
        cloudinarySearch (cloudinaryUploadResource u t uuidStr :: rs)
          u (some t) limit) := by
  have hfb : firebaseUniqueFilename t u uuidStr ext =
      (t ++ "/" ++ u ++ "/") ++ (uuidStr ++ ext) := by
    simp only [firebaseUniqueFilename, strAppendAssoc]
  have hbb : backblazeUniqueFilename u t uuidStr ext =
      (u ++ "/" ++ t ++ "/") ++ (uuidStr ++ ext) := by
    simp only [backblazeUniqueFilename, strAppendAssoc]
  have hcl : cloudinaryPublicId u t uuidStr =
      (u ++ "/" ++ t ++ "/") ++ uuidStr := by
    simp only [cloudinaryPublicId, strAppendAssoc]
  refine ⟨⟨hfb, ?_⟩, ⟨hbb, ?_⟩, ⟨hcl, ?_⟩⟩
  · have hpre : strStartsWith (firebaseUniqueFilename t u uuidStr ext)
        (t ++ "/" ++ u ++ "/") = true := by
      rw [hfb]; exact strStartsWith_append _ _
    obtain ⟨n, rfl⟩ : ∃ n, limit = n + 1 :=
      ⟨limit - 1, (Nat.succ_pred_eq_of_pos hl).symm⟩
    simp [firebaseListFiles, hpre]
  · have hpre : strStartsWith (backblazeUniqueFilename u t uuidStr ext)
        (u ++ "/" ++ t ++ "/") = true := by
      rw [hbb]; exact strStartsWith_append _ _
    simp [backblazeListFiles, hpre, lsLimit]
  · obtain ⟨n, rfl⟩ : ∃ n, limit = n + 1 :=
      ⟨limit - 1, (Nat.succ_pred_eq_of_pos hl).symm⟩
    simp [cloudinarySearch, cloudinaryUploadResource, List.contains]

/-- Witness for C2 (amended) at concrete inputs. -/
theorem upload_key_decomposition_and_listing_witness :
    firebaseUniqueFilename "user_avatar" "u1" "x9" ".png" ∈
      firebaseListFiles [firebaseUniqueFilename "user_avatar" "u1" "x9" ".png"]
        "u1" (some "user_avatar") 100 ∧
    backblazeUniqueFilename "u1" "remix_video" "x9" ".mp4" ∈
      backblazeListFiles [backblazeUniqueFilename "u1" "remix_video" "x9" ".mp4"]
        "u1" (some "remix_video") 100 ∧
    cloudinaryUploadResource "u1" "editor_video" "x9" ∈
      cloudinarySearch [cloudinaryUploadResource "u1" "editor_video" "x9"]
        "u1" (some "editor_video") 100 :=
  ⟨(upload_key_decomposition_and_listing "u1" "user_avatar" "x9" ".png"
      [] [] 100 (by decide)).1.2,
   (upload_key_decomposition_and_listing "u1" "remix_video" "x9" ".mp4"
      [] [] 100 (by decide)).2.1.2,
   (upload_key_decomposition_and_listing "u1" "editor_video" "x9"
      ".mp4" [] [] 100 (by decide)).2.2.2⟩

/-- Counterexample to C4 as stated: a general-bucket upload for user id
`cloudinary.com` yields a download URL whose substring inference
resolves to the CDN-media adapter, not the originating general-bucket
adapter. -/
theorem url_inference_cross_provider_counterexample :
    inferServiceType (firebasePublicUrl "demo.appspot.com"
        (firebaseUniqueFilename "user_avatar" "cloudinary.com" "abc123" ".png")) =
      some "cloudinary" ∧
    resolveDeleteService ⟨true, true, true⟩ (firebasePublicUrl "demo.appspot.com"
        (firebaseUniqueFilename "user_avatar" "cloudinary.com" "abc123" ".png"))
      none = some .cloudinary ∧
    Provider.cloudinary ≠ Provider.firebase := by
  refine ⟨by decide, by decide, by decide⟩

/-- C4 (amended): each adapter's download URL resolves back to that
adapter under the Manager's hint-free inference, provided the
variable parts of the URL do not themselves contain an
earlier-checked provider's domain pattern: archival URLs resolve
unconditionally; CDN-media URLs resolve when free of the archival
patterns; general-bucket URLs resolve when free of the archival and
CDN patterns. -/
theorem download_url_resolves_provider (cfg : StorageConfig)
    (fileId cloudName publicId fmt bucket blobName : String) :
    (cfg.backblaze = true →
      resolveDeleteService cfg (backblazeDownloadUrl fileId) none =
        some .backblaze) ∧
    (cfg.cloudinary = true →
      strContains (cloudinaryDownloadUrl cloudName publicId fmt)
        "backblazeb2.com" = false →
      strContains (cloudinaryDownloadUrl cloudName publicId fmt)
        "b2-api.com" = false →
      resolveDeleteService cfg (cloudinaryDownloadUrl cloudName publicId fmt)
        none = some .cloudinary) ∧
    (cfg.firebase = true →
      strContains (firebasePublicUrl bucket blobName) "backblazeb2.com" = false →
      strContains (firebasePublicUrl bucket blobName) "b2-api.com" = false →
      strContains (firebasePublicUrl bucket blobName) "cloudinary.com" = false →
      resolveDeleteService cfg (firebasePublicUrl bucket blobName) none =
        some .firebase) := by
  refine ⟨?_, ?_, ?_⟩
  · intro hb
    have h1 : strContains (backblazeDownloadUrl fileId) "backblazeb2.com" = true :=
      strContains_append_left _ fileId _ (by decide)
    simp [resolveDeleteService, inferServiceType, h1, hb]
  · intro hc hnb hna
    have h1 : strContains (cloudinaryDownloadUrl cloudName publicId fmt)
        "cloudinary.com" = true :=
      strContains_append_left _ _ _ (by decide)
    simp [resolveDeleteService, inferServiceType, h1, hnb, hna, hc]
  · intro hf hnb hna hnc
    have h1 : strContains (firebasePublicUrl bucket blobName)
        "googleapis.com" = true :=
      strContains_append_left _ _ _ (by decide)
    simp [resolveDeleteService, inferServiceType, h1, hnb, hna, hnc, hf]

/-- Witness for C4 (amended) at concrete URLs with all adapters
configured. -/
theorem download_url_resolves_provider_witness :
    resolveDeleteService ⟨true, true, true⟩ (backblazeDownloadUrl "zz41")
      none = some .backblaze ∧
    resolveDeleteService ⟨true, true, true⟩
      (cloudinaryDownloadUrl "demo" "u1/editor_video/aa" "mp4") none =
      some .cloudinary ∧
    resolveDeleteService ⟨true, true, true⟩
      (firebasePublicUrl "demo.appspot.com" "user_avatar/u1/bb.png") none =
      some .firebase := by
  have h := download_url_resolves_provider ⟨true, true, true⟩ "zz41" "demo"
    "u1/editor_video/aa" "mp4" "demo.appspot.com" "user_avatar/u1/bb.png"
  exact ⟨h.1 rfl, h.2.1 rfl (by decide) (by decide),
    h.2.2 rfl (by decide) (by decide) (by decide)⟩

/-- Counterexample to C5 as stated: on a `storage.googleapis.com` URL
the signed-URL path matches no provider (and hands the URL back
unchanged) while `delete_file`'s inference resolves to the
general-bucket provider — the two rules are not the same. -/
theorem signed_url_inference_differs_counterexample :
    signedUrlInference
      "https://storage.googleapis.com/demo.appspot.com/user_avatar/u1/bb.png" =
      none ∧
    inferServiceType
      "https://storage.googleapis.com/demo.appspot.com/user_avatar/u1/bb.png" =
      some "firebase" ∧
    getDownloadUrl ⟨true, true, true⟩ (fun _ _ => .ok "SIGNED")
      "https://storage.googleapis.com/demo.appspot.com/user_avatar/u1/bb.png" =
      "https://storage.googleapis.com/demo.appspot.com/user_avatar/u1/bb.png" := by
  refine ⟨by decide, by decide, by decide⟩

/-- C5 (amended): `get_download_url` uses its own, narrower substring
rule — it agrees with `delete_file`'s inference on every URL containing
neither `b2-api.com` nor `googleapis.com` — and when no provider
pattern matches it returns the input URL unchanged. -/
theorem signed_url_inference_agreement (cfg : StorageConfig)
    (sign : Provider → String → Except String String) (fileUrl : String) :
    (strContains fileUrl "b2-api.com" = false →
      strContains fileUrl "googleapis.com" = false →
      signedUrlInference fileUrl = inferServiceType fileUrl) ∧
    (signedUrlInference fileUrl = none →
      getDownloadUrl cfg sign fileUrl = fileUrl) := by
  constructor
  · intro h1 h2
    simp [signedUrlInference, inferServiceType, h1, h2]
  · intro hn
    have hb : strContains fileUrl "backblazeb2.com" = false := by
      by_contra h
      rw [Bool.not_eq_false] at h
      simp [signedUrlInference, h] at hn
    have hc : strContains fileUrl "cloudinary.com" = false := by
      by_contra h
      rw [Bool.not_eq_false] at h
      simp [signedUrlInference, hb, h] at hn
    have hf : strContains fileUrl "firebase" = false := by
      by_contra h
      rw [Bool.not_eq_false] at h
      simp [signedUrlInference, hb, hc, h] at hn
    simp [getDownloadUrl, getDownloadUrlCore, hb, hc, hf]

/-- Witness for C5 (amended): agreement on an archival-domain URL and
the unchanged-URL default on an unknown-domain URL. -/
theorem signed_url_inference_agreement_witness :
    signedUrlInference "https://f002.backblazeb2.com/x" =
      inferServiceType "https://f002.backblazeb2.com/x" ∧
    getDownloadUrl ⟨true, true, true⟩ (fun _ _ => .ok "SIGNED")
      "https://unknown.example.com/x" = "https://unknown.example.com/x" :=
  ⟨(signed_url_inference_agreement ⟨true, true, true⟩ (fun _ _ => .ok "SIGNED")
      "https://f002.backblazeb2.com/x").1 (by decide) (by decide),
   (signed_url_inference_agreement ⟨true, true, true⟩ (fun _ _ => .ok "SIGNED")
      "https://unknown.example.com/x").2 (by decide)⟩

/-- Counterexample to C10 as stated: with the declared content-type
`application/pdf` the classification still depends on the filename
extension (`.mp4` gives `video`, `.pdf` gives `raw`), so a declared
content-type does not always determine the result. -/
theorem resource_type_counterexample :
    getResourceType (some "application/pdf") ".mp4" = "video" ∧
    getResourceType (some "application/pdf") ".pdf" = "raw" := by
  refine ⟨by decide, by decide⟩

/-- C10 (amended): the declared content-type takes precedence exactly
when it starts with `video/`, `audio/` or `image/` — the extension is
then ignored; when the content-type is absent or matches none of the
three media prefixes, classification falls back to the filename
extension, behaving as if no content-type had been declared. -/
theorem resource_type_precedence (ct e1 e2 : String) :
    (strStartsWith ct "video/" = true →
      getResourceType (some ct) e1 = "video" ∧
      getResourceType (some ct) e1 = getResourceType (some ct) e2) ∧
    (strStartsWith ct "audio/" = true →
      getResourceType (some ct) e1 = "video" ∧
      getResourceType (some ct) e1 = getResourceType (some ct) e2) ∧
    (strStartsWith ct "image/" = true →
      getResourceType (some ct) e1 = "image" ∧
      getResourceType (some ct) e1 = getResourceType (some ct) e2) ∧
    (strStartsWith ct "video/" = false → strStartsWith ct "audio/" = false →
      strStartsWith ct "image/" = false →
      getResourceType (some ct) e1 = getResourceType none e1) := by
  refine ⟨?_, ?_, ?_, ?_⟩
  · intro h
    have h0 : ct ≠ "" := by
      intro he
      subst he
      exact absurd h (by decide)
    constructor <;> simp [getResourceType, h0, h]
  · intro h
    have h0 : ct ≠ "" := by
      intro he
      subst he
      exact absurd h (by decide)
    by_cases hv : strStartsWith ct "video/" = true <;>
      constructor <;> simp_all [getResourceType, h0, h]
  · intro h
    have h0 : ct ≠ "" := by
      intro he
      subst he
      exact absurd h (by decide)
    have hv : strStartsWith ct "video/" = false := by
      by_contra hx
      rw [Bool.not_eq_false] at hx
      have : 'i' = 'v' :=
        listStartsWith_head_eq 'i' 'v' "mage/".data "ideo/".data ct.data h hx
      exact absurd this (by decide)
    have ha : strStartsWith ct "audio/" = false := by
      by_contra hx
      rw [Bool.not_eq_false] at hx
      have : 'i' = 'a' :=
        listStartsWith_head_eq 'i' 'a' "mage/".data "udio/".data ct.data h hx
      exact absurd this (by decide)
    constructor <;> simp [getResourceType, h0, h, hv, ha]
  · intro h1 h2 h3
    by_cases h0 : ct = ""
    · subst h0
      simp [getResourceType]
    · simp [getResourceType, h0, h1, h2, h3]

/-- Witness for C10 (amended): a `video/` content-type wins over a
non-video extension, and an unrecognized content-type defers to the
extension exactly as an absent one does. -/
theorem resource_type_precedence_witness :
    (getResourceType (some "video/mp4") ".pdf" = "video" ∧
      getResourceType (some "video/mp4") ".pdf" =
        getResourceType (some "video/mp4") ".jpg") ∧
    getResourceType (some "application/pdf") ".mp4" =
      getResourceType none ".mp4" :=
  ⟨(resource_type_precedence "video/mp4" ".pdf" ".jpg").1 (by decide),
   (resource_type_precedence "application/pdf" ".mp4" ".jpg").2.2.2
     (by decide) (by decide) (by decide)⟩

end VideoBackend
